import Mathlib

/-!
# Verification of the VStudio CLI lifecycle/priority core

A shallow embedding, in Lean 4, of the lifecycle and priority core of the
VStudio CLI call-list manager (`vstudio_cli.py`, `database.py`):

* contact records are Python `dict`s of string fields, embedded as
  association lists with Python `dict.get` semantics;
* the CSV priority-view classifier `CRMDataManager._get_priority_view_csv`;
* the flat-file lookup and update (`get_contact_by_id`, `_update_contact_csv`);
* the CSV import validation loop of `VStudioCLI._load_csv`;
* the call outcome transitions (`_outcome_callback`, `_outcome_meeting`,
  `_outcome_bad_number`, `_outcome_do_not_call`), the manual
  promote/demote transitions and the `_cancel_calendar_events` helper;
* the edit-history ledger (`_save_edit_history`, `_edit_field`,
  `_revert_field_change`);
* the calendar operation retry queue (`OperationQueue.process_queue`).

External collaborators (Google calendar, phone normalization, the
per-process Python string hash) are passed in as function parameters;
dates are explicit parameters instead of `datetime.now()`.
-/

namespace VStudio

/-! ## Python dict-shaped records -/

/-- A contact record: a Python `dict` with string keys and string values,
embedded as an association list (first binding wins, as a dict has unique
keys; `dset` replaces in place). -/
abbrev Rec := List (String × String)

/-- `record.get(k)`: `some v` when the key is present, `none` otherwise. -/
def dgetOpt (r : Rec) (k : String) : Option String :=
  match r.find? (fun p => p.1 == k) with
  | some p => some p.2
  | none => none

/-- `record.get(k, dflt)`. -/
def dgetD (r : Rec) (k dflt : String) : String :=
  (dgetOpt r k).getD dflt

/-- `record.get(k, "")`, the most common access pattern in the source. -/
def dget (r : Rec) (k : String) : String := dgetD r k ""

/-- `record[k] = v`: replace the first binding of `k`, or append one. -/
def dset (r : Rec) (k v : String) : Rec :=
  match r with
  | [] => [(k, v)]
  | p :: rest => if p.1 == k then (k, v) :: rest else p :: dset rest k v

/-- Python truthiness of `record.get(k)`: `None` and `""` are falsy. -/
def truthy (o : Option String) : Bool :=
  match o with
  | some s => s ≠ ""
  | none => false

theorem dgetOpt_cons_pos {p : String × String} {rest : Rec} {k : String}
    (h : p.1 = k) :
    dgetOpt (p :: rest) k = some p.2 := by
  rw [dgetOpt, List.find?_cons_of_pos _ (by simp [h])]

theorem dgetOpt_cons_neg {p : String × String} {rest : Rec} {k : String}
    (h : ¬p.1 = k) :
    dgetOpt (p :: rest) k = dgetOpt rest k := by
  rw [dgetOpt, List.find?_cons_of_neg _ (by simp [h]), dgetOpt]

theorem dgetOpt_dset_self (r : Rec) (k v : String) :
    dgetOpt (dset r k v) k = some v := by
  induction r with
  | nil => exact dgetOpt_cons_pos rfl
  | cons p rest ih =>
    by_cases h : p.1 = k
    · simp only [dset, beq_iff_eq, h, if_true]
      exact dgetOpt_cons_pos rfl
    · simp only [dset, beq_iff_eq, h, if_false]
      rw [dgetOpt_cons_neg h]
      exact ih

theorem dgetOpt_dset_ne (r : Rec) (k k' v : String) (h : k' ≠ k) :
    dgetOpt (dset r k v) k' = dgetOpt r k' := by
  induction r with
  | nil => exact dgetOpt_cons_neg (Ne.symm h)
  | cons p rest ih =>
    by_cases hk : p.1 = k
    · simp only [dset, beq_iff_eq, hk, if_true]
      rw [dgetOpt_cons_neg (Ne.symm h), dgetOpt_cons_neg (hk ▸ Ne.symm h)]
    · simp only [dset, beq_iff_eq, hk, if_false]
      by_cases hk' : p.1 = k'
      · rw [dgetOpt_cons_pos hk', dgetOpt_cons_pos hk']
      · rw [dgetOpt_cons_neg hk', dgetOpt_cons_neg hk']
        exact ih

theorem dget_dset_self (r : Rec) (k v : String) :
    dget (dset r k v) k = v := by
  simp [dget, dgetD, dgetOpt_dset_self]

theorem dget_dset_ne (r : Rec) (k k' v : String) (h : k' ≠ k) :
    dget (dset r k v) k' = dget r k' := by
  simp [dget, dgetD, dgetOpt_dset_ne r k k' v h]

/-! ## Dates

`datetime.date` values, with the lexicographic (year, month, day) order
that Python's date comparison implements. Only well-formed dates are
produced by the parser below. -/

structure PyDate where
  year : Nat
  month : Nat
  day : Nat
deriving DecidableEq, Repr

/-- Encode a date as a single `Nat` so that the Python date order is the
numeric order. -/
def PyDate.key (d : PyDate) : Nat := d.year * 10000 + d.month * 100 + d.day

instance : LT PyDate := ⟨fun a b => a.key < b.key⟩

instance (a b : PyDate) : Decidable (a < b) :=
  inferInstanceAs (Decidable (a.key < b.key))

/-- `datetime.time`-, as (hour, minute): the fraction of a datetime beyond
its date that the embedded code inspects. -/
structure PyDateTime where
  date : PyDate
  hour : Nat
  minute : Nat
deriving DecidableEq, Repr

/-- Number of days in a month, with leap years (`calendar` rules used by
`datetime`). -/
def daysInMonth (y m : Nat) : Nat :=
  if m = 2 then
    if y % 4 = 0 ∧ (y % 100 ≠ 0 ∨ y % 400 = 0) then 29 else 28
  else if m = 4 ∨ m = 6 ∨ m = 9 ∨ m = 11 then 30
  else 31

/-- `d + timedelta(days=1)`. -/
def PyDate.succDay (d : PyDate) : PyDate :=
  if d.day < daysInMonth d.year d.month then ⟨d.year, d.month, d.day + 1⟩
  else if d.month < 12 then ⟨d.year, d.month + 1, 1⟩
  else ⟨d.year + 1, 1, 1⟩

/-- `d + timedelta(days=n)`. -/
def PyDate.addDays (d : PyDate) : Nat → PyDate
  | 0 => d
  | n + 1 => (d.addDays n).succDay

/-- Left-pad a numeral with zeros. -/
def padNat (width n : Nat) : String :=
  let s := toString n
  String.mk (List.replicate (width - s.length) '0') ++ s

/-- `date.isoformat()`: `YYYY-MM-DD`. -/
def PyDate.iso (d : PyDate) : String :=
  padNat 4 d.year ++ "-" ++ padNat 2 d.month ++ "-" ++ padNat 2 d.day

/-- `datetime.isoformat()` for whole-minute datetimes: `YYYY-MM-DDTHH:MM:00`. -/
def PyDateTime.iso (dt : PyDateTime) : String :=
  dt.date.iso ++ "T" ++ padNat 2 dt.hour ++ ":" ++ padNat 2 dt.minute ++ ":00"

/-- `datetime.strftime("%Y-%m-%d %H:%M")`. -/
def PyDateTime.fmtMinute (dt : PyDateTime) : String :=
  dt.date.iso ++ " " ++ padNat 2 dt.hour ++ ":" ++ padNat 2 dt.minute

/-! ### Parsing

Model of `datetime.fromisoformat(s).date()`: `s` must start with a valid
`YYYY-MM-DD` date, followed either by nothing or by a space and a valid
`HH:MM[:SS[.ffffff]]` time. The embedded code always calls it after
`s.replace("T", " ")`. On any malformed input the Python call raises
`ValueError`; the model returns `none`. -/

def digitVal (c : Char) : Option Nat :=
  if c.isDigit then some (c.toNat - '0'.toNat) else none

/-- Read exactly `n` leading digits as a number, returning the rest. -/
def readDigits : Nat → List Char → Option (Nat × List Char)
  | 0, cs => some (0, cs)
  | _ + 1, [] => none
  | n + 1, c :: cs => do
    let d ← digitVal c
    let (rest, cs') ← readDigits n cs
    pure (d * 10 ^ n + rest, cs')

/-- Accept `SS` or `SS.ffffff` second fields. -/
def validSeconds (cs : List Char) : Bool :=
  match readDigits 2 cs with
  | some (s, []) => s < 60
  | some (s, '.' :: frac) => s < 60 && frac ≠ [] && frac.all Char.isDigit
  | _ => false

/-- Accept `HH:MM`, `HH:MM:SS` or `HH:MM:SS.ffffff`. -/
def validTime (cs : List Char) : Bool :=
  match readDigits 2 cs with
  | some (h, ':' :: cs₁) =>
    match readDigits 2 cs₁ with
    | some (m, []) => h < 24 && m < 60
    | some (m, ':' :: cs₂) => h < 24 && m < 60 && validSeconds cs₂
    | _ => false
  | _ => false

/-- `datetime.fromisoformat(s).date()` as an `Option`. -/
def parseIsoDate (s : String) : Option PyDate := do
  let cs := s.data
  let (y, cs₁) ← readDigits 4 cs
  match cs₁ with
  | '-' :: cs₂ => do
    let (m, cs₃) ← readDigits 2 cs₂
    match cs₃ with
    | '-' :: cs₄ => do
      let (d, cs₅) ← readDigits 2 cs₄
      if 1 ≤ m ∧ m ≤ 12 ∧ 1 ≤ d ∧ d ≤ daysInMonth y m then
        match cs₅ with
        | [] => pure ⟨y, m, d⟩
        | ' ' :: time => if validTime time then pure ⟨y, m, d⟩ else none
        | _ => none
      else none
    | _ => none
  | _ => none

/-- `s.replace("T", " ")`: a character-wise map, as the pattern is a
single character. -/
def replTspace (s : String) : String :=
  String.mk (s.data.map (fun c => if c = 'T' then ' ' else c))

/-! ## Priority Classifier — `CRMDataManager._get_priority_view_csv`

The CSV-backend view query (`database.py`, lines 436-496). `today` is the
`datetime.now().date()` value, passed explicitly. Each date field is read,
checked for truthiness, T-replaced and parsed inside a `try`/`except: pass`:
a field that fails to parse contributes nothing and the loop continues. -/

/-- One date field's contribution to a view: truthiness check, then
`datetime.fromisoformat(s.replace("T", " ")).date()` compared with `cmp`;
an unparseable field yields `false` (the `except: pass`). -/
def fieldDateCmp (r : Rec) (key : String) (cmp : PyDate → Bool) : Bool :=
  let v := dgetOpt r key
  if truthy v then
    match parseIsoDate (replTspace (v.getD "")) with
    | some d => cmp d
    | none => false
  else false

/-- Record-level test of the `today` branch: callback on `today`, or
meeting dated `today`. -/
def todayCheck (today : PyDate) (r : Rec) : Bool :=
  fieldDateCmp r "callback_on" (fun d => d = today) ||
    fieldDateCmp r "meeting_at" (fun d => d = today)

/-- Record-level test of the `overdue` branch: callback strictly before
`today`, or meeting dated strictly before `today`. -/
def overdueCheck (today : PyDate) (r : Rec) : Bool :=
  fieldDateCmp r "callback_on" (fun d => d < today) ||
    fieldDateCmp r "meeting_at" (fun d => d < today)

/-- `CRMDataManager._get_priority_view_csv(view_type)` over the in-memory
`contacts_data`, with `today` explicit. The final branch is the
"All active" default, excluding statuses `archived`, `deleted` and
`do_not_call`. -/
def getPriorityViewCsv (contactsData : List Rec) (viewType : String)
    (today : PyDate) : List Rec :=
  if viewType = "today" then
    contactsData.filter (todayCheck today)
  else if viewType = "overdue" then
    contactsData.filter (overdueCheck today)
  else if viewType = "new" then
    contactsData.filter (fun r => dgetOpt r "status" == some "new")
  else
    contactsData.filter (fun r =>
      !(dgetOpt r "status" == some "archived" ||
        dgetOpt r "status" == some "deleted" ||
        dgetOpt r "status" == some "do_not_call"))

/-! ## Persistence Adapter, flat-file backend -/

/-- The record/key match used by the CSV branch of `get_contact_by_id` and
by `_update_contact_csv`: the supplied key equals `external_row_id` or
`phone_number` (Python `==` on `record.get(...)`, where a missing key is
`None` and never equals a string). -/
def matchesContactId (r : Rec) (contactId : String) : Bool :=
  dgetOpt r "external_row_id" == some contactId ||
    dgetOpt r "phone_number" == some contactId

/-- `CRMDataManager.get_contact_by_id`, CSV branch (`database.py`, lines
218-223): first record whose `external_row_id` or `phone_number` equals
the key, else `None`. -/
def get_contact_by_id (contactsData : List Rec) (contactId : String) :
    Option Rec :=
  match contactsData with
  | [] => none
  | r :: rest =>
    if matchesContactId r contactId then some r
    else get_contact_by_id rest contactId

/-- Apply a Python `for key, value in updates.items(): record[key] = value`
loop. -/
def applyUpdates (r : Rec) (updates : List (String × String)) : Rec :=
  match updates with
  | [] => r
  | (k, v) :: rest => applyUpdates (dset r k v) rest

/-- `CRMDataManager._update_contact_csv` (`database.py`, lines 252-272):
find the first matching record, apply the updates, stamp `last_updated`
(with `datetime.now().isoformat()`, here the explicit `nowIso`), return
`True`; return `False` and leave all records unchanged when nothing
matches. -/
def update_contact_csv (contactsData : List Rec) (contactId : String)
    (updates : List (String × String)) (nowIso : String) :
    Bool × List Rec :=
  match contactsData with
  | [] => (false, [])
  | r :: rest =>
    if matchesContactId r contactId then
      (true, dset (applyUpdates r updates) "last_updated" nowIso :: rest)
    else
      let u := update_contact_csv rest contactId updates nowIso
      (u.1, r :: u.2)

/-- `TERMINAL_STATUSES` (`vstudio_cli.py`, line 83), as a list (the Python
value is a set; only membership is used). -/
def TERMINAL_STATUSES : List String :=
  ["deleted", "do_not_call", "bad_number", "close_won", "close_lost"]

/-! ## Supporting lemmas on the classifier -/

/-- A date field contributes to a view exactly when it parses (after the
`T` → space replacement) to a date satisfying the comparison; an absent,
empty or unparseable field contributes nothing. -/
theorem fieldDateCmp_iff (r : Rec) (k : String) (cmp : PyDate → Bool) :
    fieldDateCmp r k cmp = true ↔
      ∃ d, parseIsoDate (replTspace (dget r k)) = some d ∧ cmp d = true := by
  have hempty : parseIsoDate (replTspace "") = none := by decide
  unfold fieldDateCmp dget dgetD
  cases h : dgetOpt r k with
  | none =>
    simp only [truthy, if_false, Option.getD_none, hempty]
    constructor
    · intro hf; cases hf
    · rintro ⟨d, hd, -⟩; cases hd
  | some s =>
    by_cases hs : s = ""
    · subst hs
      simp only [truthy, ne_eq, not_true_eq_false, Bool.false_eq_true,
        if_false, Option.getD_some, hempty]
      constructor
      · intro hf; cases hf
      · rintro ⟨d, hd, -⟩; cases hd
    · simp only [truthy, ne_eq, hs, not_false_eq_true, if_true,
        Option.getD_some]
      cases hp : parseIsoDate (replTspace s) with
      | none =>
        constructor
        · intro hf; cases hf
        · rintro ⟨d, hd, -⟩; cases hd
      | some d =>
        constructor
        · intro hc; exact ⟨d, rfl, hc⟩
        · rintro ⟨d', hd', hc⟩
          cases hd'
          exact hc

/-- Membership in the `overdue` branch, field by field. -/
theorem mem_overdue_iff (data : List Rec) (today : PyDate) (r : Rec) :
    r ∈ getPriorityViewCsv data "overdue" today ↔
      r ∈ data ∧ overdueCheck today r = true := by
  unfold getPriorityViewCsv
  simp only [if_neg (by decide : ¬("overdue" : String) = "today"), if_pos rfl]
  exact List.mem_filter

/-- Membership in the `today` branch, field by field. -/
theorem mem_today_iff (data : List Rec) (today : PyDate) (r : Rec) :
    r ∈ getPriorityViewCsv data "today" today ↔
      r ∈ data ∧ todayCheck today r = true := by
  unfold getPriorityViewCsv
  rw [if_pos rfl]
  exact List.mem_filter

/-- Membership in the all-active default branch. -/
theorem mem_all_iff (data : List Rec) (today : PyDate) (r : Rec) :
    r ∈ getPriorityViewCsv data "all" today ↔
      r ∈ data ∧
        (dgetOpt r "status" == some "archived" ||
          dgetOpt r "status" == some "deleted" ||
          dgetOpt r "status" == some "do_not_call") = false := by
  unfold getPriorityViewCsv
  rw [if_neg (by decide : ¬("all" : String) = "today"),
    if_neg (by decide : ¬("all" : String) = "overdue"),
    if_neg (by decide : ¬("all" : String) = "new")]
  rw [List.mem_filter]
  simp only [Bool.not_eq_true']

/-! ## Claim C1 — the overdue view -/

/-- The overdue condition exactly as claim C1 states it: a date field
parses and is strictly before `asOf`, and the status is neither close-won
nor close-lost. -/
def c1ClaimCond (asOf : PyDate) (r : Rec) : Bool :=
  (fieldDateCmp r "callback_on" (fun d => d < asOf) ||
    fieldDateCmp r "meeting_at" (fun d => d < asOf)) &&
  !(dgetOpt r "status" == some "close_won" ||
    dgetOpt r "status" == some "close_lost")

/-- A close-won contact with an overdue callback, the counterexample
input for C1 and C3 and part of C2's witness. -/
def closeWonOverdueRec : Rec :=
  [("status", "close_won"), ("callback_on", "2024-01-01")]

/-- C1 counterexample: the code's overdue view applies no status filter,
so a `close_won` contact with an overdue `callback_on` is a member even
though the claim's condition excludes it. -/
theorem C1_counterexample :
    ¬ (∀ (data : List Rec) (asOf : PyDate) (r : Rec),
        r ∈ getPriorityViewCsv data "overdue" asOf ↔
          r ∈ data ∧ c1ClaimCond asOf r = true) := by
  intro h
  have hmem : closeWonOverdueRec ∈
      getPriorityViewCsv [closeWonOverdueRec] "overdue" ⟨2024, 1, 15⟩ := by
    decide
  have h2 := (h [closeWonOverdueRec] ⟨2024, 1, 15⟩ closeWonOverdueRec).mp hmem
  have h3 : c1ClaimCond ⟨2024, 1, 15⟩ closeWonOverdueRec = false := by decide
  rw [h2.2] at h3
  cases h3

/-- C1 (amended): for every contact list and date `asOf`, the overdue
view contains a contact iff its `callback_on` parses to a date strictly
before `asOf` or its `meeting_at` parses to a datetime whose date part is
strictly before `asOf` — with no status condition; an absent, empty or
unparseable date field contributes nothing to membership, and the
classifier is a total function (never an error). -/
theorem C1_overdue_membership (data : List Rec) (asOf : PyDate) (r : Rec) :
    r ∈ getPriorityViewCsv data "overdue" asOf ↔
      r ∈ data ∧
        ((∃ d, parseIsoDate (replTspace (dget r "callback_on")) = some d ∧
            d < asOf) ∨
          (∃ d, parseIsoDate (replTspace (dget r "meeting_at")) = some d ∧
            d < asOf)) := by
  rw [mem_overdue_iff]
  unfold overdueCheck
  rw [Bool.or_eq_true, fieldDateCmp_iff, fieldDateCmp_iff]
  simp only [decide_eq_true_eq]

/-! ## Claim C2 — terminal statuses and the views -/

/-- A close-won contact with one overdue callback and one meeting dated
2024-01-15: the C2 counterexample input. -/
def closeWonBusyRec : Rec :=
  [("status", "close_won"), ("callback_on", "2024-01-01"),
   ("meeting_at", "2024-01-15T14:00:00")]

/-- C2 counterexample: one concrete contact whose status `close_won` is
in `TERMINAL_STATUSES` is simultaneously a member of the code's `all`,
`today` and `overdue` views on 2024-01-15 — the claim says a
terminal-status contact is absent from every one of them (the all-active
exclusion list is `["archived", "deleted", "do_not_call"]`, and the
today/overdue branches never look at the status). -/
theorem C2_counterexample :
    dgetOpt closeWonBusyRec "status" = some "close_won" ∧
    "close_won" ∈ TERMINAL_STATUSES ∧
    closeWonBusyRec ∈
      getPriorityViewCsv [closeWonBusyRec] "all" ⟨2024, 1, 15⟩ ∧
    closeWonBusyRec ∈
      getPriorityViewCsv [closeWonBusyRec] "today" ⟨2024, 1, 15⟩ ∧
    closeWonBusyRec ∈
      getPriorityViewCsv [closeWonBusyRec] "overdue" ⟨2024, 1, 15⟩ := by
  refine ⟨by decide, by decide, by decide, by decide, by decide⟩

/-- C2 (amended): the all-active view contains exactly the contacts whose
status is outside `{archived, deleted, do_not_call}` (so `bad_number`,
`close_won` and `close_lost` contacts remain in it); a `deleted` or
`do_not_call` status is absent from the all view; every status in the
terminal set is absent from the `new` view; and the `today` and `overdue`
views apply no status filter — membership there is exactly
data-membership plus the date conditions, so terminal contacts with
qualifying dates appear in them. -/
theorem C2_view_exclusions (data : List Rec) (today : PyDate) (r : Rec) :
    (r ∈ getPriorityViewCsv data "all" today ↔
      r ∈ data ∧
        dgetOpt r "status" ≠ some "archived" ∧
        dgetOpt r "status" ≠ some "deleted" ∧
        dgetOpt r "status" ≠ some "do_not_call") ∧
    ((dgetOpt r "status" = some "deleted" ∨
        dgetOpt r "status" = some "do_not_call") →
      r ∉ getPriorityViewCsv data "all" today) ∧
    (∀ s, dgetOpt r "status" = some s → s ∈ TERMINAL_STATUSES →
      r ∉ getPriorityViewCsv data "new" today) ∧
    (r ∈ getPriorityViewCsv data "today" today ↔
      r ∈ data ∧ todayCheck today r = true) ∧
    (r ∈ getPriorityViewCsv data "overdue" today ↔
      r ∈ data ∧ overdueCheck today r = true) ∧
    (∀ s, dgetOpt r "status" = some s → s ∈ TERMINAL_STATUSES →
      r ∈ data → todayCheck today r = true →
      r ∈ getPriorityViewCsv data "today" today) ∧
    (∀ s, dgetOpt r "status" = some s → s ∈ TERMINAL_STATUSES →
      r ∈ data → overdueCheck today r = true →
      r ∈ getPriorityViewCsv data "overdue" today) := by
  have hall : r ∈ getPriorityViewCsv data "all" today ↔
      r ∈ data ∧
        dgetOpt r "status" ≠ some "archived" ∧
        dgetOpt r "status" ≠ some "deleted" ∧
        dgetOpt r "status" ≠ some "do_not_call" := by
    rw [mem_all_iff]
    constructor
    · rintro ⟨hm, hs⟩
      refine ⟨hm, ?_, ?_, ?_⟩ <;>
        · intro hc
          rw [hc] at hs
          simp at hs
    · rintro ⟨hm, h1, h2, h3⟩
      refine ⟨hm, ?_⟩
      simp only [Bool.or_eq_false_iff, beq_eq_false_iff_ne, ne_eq]
      exact ⟨⟨h1, h2⟩, h3⟩
  refine ⟨hall, ?_, ?_, mem_today_iff data today r,
    mem_overdue_iff data today r, ?_, ?_⟩
  · intro hcase hmem
    rcases (hall.mp hmem).2 with ⟨-, h2, h3⟩
    cases hcase with
    | inl h => exact h2 h
    | inr h => exact h3 h
  · intro s hs hterm hmem
    unfold getPriorityViewCsv at hmem
    rw [if_neg (by decide : ¬("new" : String) = "today"),
      if_neg (by decide : ¬("new" : String) = "overdue"), if_pos rfl] at hmem
    have := (List.mem_filter.mp hmem).2
    rw [hs] at this
    have hsn : s = "new" := by simpa using this
    subst hsn
    revert hterm
    decide
  · intro s hs hterm hmem hcheck
    exact (mem_today_iff data today r).mpr ⟨hmem, hcheck⟩
  · intro s hs hterm hmem hcheck
    exact (mem_overdue_iff data today r).mpr ⟨hmem, hcheck⟩

/-! ## Claim C10 — flat-file lookup and update -/

/-- `update_contact_csv` on a list with no matching record: `False` and
an unchanged list. -/
theorem update_no_match (data : List Rec) (cid : String)
    (updates : List (String × String)) (nowIso : String)
    (h : ∀ q ∈ data, matchesContactId q cid = false) :
    update_contact_csv data cid updates nowIso = (false, data) := by
  induction data with
  | nil => rfl
  | cons r rest ih =>
    have hr := h r (List.mem_cons_self r rest)
    rw [update_contact_csv, if_neg (by rw [hr]; exact Bool.false_ne_true),
      ih (fun q hq => h q (List.mem_cons_of_mem r hq))]

/-- C10: CSV-mode `get_contact_by_id` returns the first record (in list
order) whose `external_row_id` or `phone_number` equals the key, and
`_update_contact_csv` updates exactly that record, stamping
`last_updated`; when no record matches, `get` returns `None`, `update`
returns `False`, and every stored record is unchanged. -/
theorem C10_get_update_contact (data : List Rec) (cid : String)
    (updates : List (String × String)) (nowIso : String) :
    (get_contact_by_id data cid =
      data.find? (fun q => matchesContactId q cid)) ∧
    ((∀ q ∈ data, matchesContactId q cid = false) →
      get_contact_by_id data cid = none ∧
        update_contact_csv data cid updates nowIso = (false, data)) ∧
    (∀ pre r post, data = pre ++ r :: post →
      (∀ q ∈ pre, matchesContactId q cid = false) →
      matchesContactId r cid = true →
      update_contact_csv data cid updates nowIso =
        (true,
          pre ++ dset (applyUpdates r updates) "last_updated" nowIso
            :: post)) := by
  refine ⟨?_, ?_, ?_⟩
  · induction data with
    | nil => rfl
    | cons r rest ih =>
      by_cases h : matchesContactId r cid = true
      · rw [get_contact_by_id, if_pos h]
        exact (List.find?_cons_of_pos (p := fun q => matchesContactId q cid)
          rest h).symm
      · rw [get_contact_by_id, if_neg h,
          List.find?_cons_of_neg (p := fun q => matchesContactId q cid)
            rest h]
        exact ih
  · intro h
    constructor
    · induction data with
      | nil => rfl
      | cons r rest ih =>
        rw [get_contact_by_id,
          if_neg (by rw [h r (List.mem_cons_self r rest)]
                     exact Bool.false_ne_true)]
        exact ih (fun q hq => h q (List.mem_cons_of_mem r hq))
    · exact update_no_match data cid updates nowIso h
  · intro pre r post hdata hpre hr
    subst hdata
    induction pre with
    | nil => rw [List.nil_append, update_contact_csv, if_pos hr]; rfl
    | cons q qs ih =>
      have hq := hpre q (List.mem_cons_self q qs)
      rw [List.cons_append, update_contact_csv,
        if_neg (by rw [hq]; exact Bool.false_ne_true),
        ih (fun a ha => hpre a (List.mem_cons_of_mem q ha))]
      rfl

/-- C10 witness: a concrete two-record store where the key matches the
second record's phone number, and a key that matches nothing. -/
theorem C10_get_update_contact_witness :
    update_contact_csv
        [[("external_row_id", "id1"), ("phone_number", "+14165551234")],
         [("external_row_id", "id2"), ("phone_number", "+14165550000")]]
        "+14165550000" [("status", "callback")] "2024-01-15T10:00:00" =
      (true,
        [[("external_row_id", "id1"), ("phone_number", "+14165551234")],
         [("external_row_id", "id2"), ("phone_number", "+14165550000"),
          ("status", "callback"),
          ("last_updated", "2024-01-15T10:00:00")]]) ∧
    get_contact_by_id
        [[("external_row_id", "id1"), ("phone_number", "+14165551234")]]
        "nokey" = none := by
  constructor
  · have h := (C10_get_update_contact
      [[("external_row_id", "id1"), ("phone_number", "+14165551234")],
       [("external_row_id", "id2"), ("phone_number", "+14165550000")]]
      "+14165550000" [("status", "callback")] "2024-01-15T10:00:00").2.2
      [[("external_row_id", "id1"), ("phone_number", "+14165551234")]]
      [("external_row_id", "id2"), ("phone_number", "+14165550000")]
      [] rfl (by decide) (by decide)
    rw [h]
    rfl
  · have h := ((C10_get_update_contact
      [[("external_row_id", "id1"), ("phone_number", "+14165551234")]]
      "nokey" [] "").2.1 (by decide)).1
    exact h

/-! ## CSV import validation — `VStudioCLI._load_csv`

The validation/normalization loop over the freshly read rows
(`vstudio_cli.py`, lines 828-855). External inputs passed as parameters:
`pyHash` is the process's (salted) Python string hash, `stem` the CSV
file stem, `normalize` the `phonenumbers`-backed
`_normalize_phone_number` (returning `None` on failure). -/

/-- Python `str.strip()` whitespace test (ASCII whitespace). -/
def isPySpace (c : Char) : Bool :=
  c = ' ' || c = '\t' || c = '\n' || c = '\r' || c.toNat = 11 || c.toNat = 12

/-- Python `s.strip()`. -/
def pyStrip (s : String) : String :=
  String.mk (((s.data.dropWhile isPySpace).reverse.dropWhile isPySpace).reverse)

/-- The two per-row defaulting steps (`vstudio_cli.py`, lines 829-836):
generate `external_row_id` as `f"{stem}_{i}_{abs(hash(phone+name+company))}"`
when the field is missing/empty, and default `status` to `new`. -/
def assignRowMeta (pyHash : String → Int) (stem : String) (i : Nat)
    (row : Rec) : Rec :=
  let row1 :=
    if truthy (dgetOpt row "external_row_id") then row
    else
      dset row "external_row_id"
        (stem ++ "_" ++ toString i ++ "_" ++
          toString (pyHash (dgetD row "phone_number" "" ++
            dgetD row "name" "" ++ dgetD row "company" "")).natAbs)
  if truthy (dgetOpt row1 "status") then row1
  else dset row1 "status" "new"

/-- The validation loop of `_load_csv`: per row, assign metadata, then
strip the phone number; an empty phone appends an issue and `continue`s
(the row is not appended to `valid_rows`); a phone that fails
normalization appends an issue and keeps the row with
`status = invalid_phone`; otherwise the normalized phone is stored.
Returns `(valid_rows, issues)`. -/
def loadValidate (pyHash : String → Int) (stem : String)
    (normalize : String → Option String) :
    Nat → List Rec → List Rec × List String
  | _, [] => ([], [])
  | i, row :: rest =>
    let row1 := assignRowMeta pyHash stem i row
    let phone := pyStrip (dget row1 "phone_number")
    let tailRes := loadValidate pyHash stem normalize (i + 1) rest
    if phone = "" then
      (tailRes.1,
        ("Row " ++ toString (i + 1) ++ ": Missing phone_number number")
          :: tailRes.2)
    else
      match normalize phone with
      | some n => (dset row1 "phone_number" n :: tailRes.1, tailRes.2)
      | none =>
        (dset row1 "status" "invalid_phone" :: tailRes.1,
          ("Row " ++ toString (i + 1) ++ ": Invalid phone number format: "
            ++ phone) :: tailRes.2)

/-- A row whose (stripped) phone number is empty. -/
def phoneMissing (row : Rec) : Bool :=
  pyStrip (dget row "phone_number") == ""

/-- A row whose phone number is present but fails normalization. -/
def phoneInvalid (normalize : String → Option String) (row : Rec) : Bool :=
  !phoneMissing row && (normalize (pyStrip (dget row "phone_number"))).isNone

/-- Metadata assignment never touches the phone number field. -/
theorem dget_assignRowMeta_phone (pyHash : String → Int) (stem : String)
    (i : Nat) (row : Rec) :
    dget (assignRowMeta pyHash stem i row) "phone_number" =
      dget row "phone_number" := by
  unfold assignRowMeta
  by_cases h1 : truthy (dgetOpt row "external_row_id")
  · simp only [h1, if_true]
    by_cases h2 : truthy (dgetOpt row "status")
    · simp [h2]
    · simp only [h2, Bool.false_eq_true, if_false]
      exact dget_dset_ne _ _ _ _ (by decide)
  · simp only [h1, Bool.false_eq_true, if_false]
    by_cases h2 : truthy (dgetOpt (dset row "external_row_id"
        (stem ++ "_" ++ toString i ++ "_" ++
          toString (pyHash (dgetD row "phone_number" "" ++
            dgetD row "name" "" ++ dgetD row "company" "")).natAbs))
        "status")
    · simp only [h2, if_true]
      exact dget_dset_ne _ _ _ _ (by decide)
    · simp only [h2, Bool.false_eq_true, if_false]
      rw [dget_dset_ne _ _ _ _ (by decide),
        dget_dset_ne _ _ _ _ (by decide)]

/-- One unfolding step of the validation loop, with the phone test
rephrased on the raw row (metadata assignment does not touch the phone
field). -/
theorem loadValidate_cons_eq (pyHash : String → Int) (stem : String)
    (normalize : String → Option String) (i : Nat) (row : Rec)
    (rest : List Rec) :
    loadValidate pyHash stem normalize i (row :: rest) =
      if pyStrip (dget row "phone_number") = "" then
        ((loadValidate pyHash stem normalize (i + 1) rest).1,
          ("Row " ++ toString (i + 1) ++ ": Missing phone_number number")
            :: (loadValidate pyHash stem normalize (i + 1) rest).2)
      else
        match normalize (pyStrip (dget row "phone_number")) with
        | some n =>
          (dset (assignRowMeta pyHash stem i row) "phone_number" n
              :: (loadValidate pyHash stem normalize (i + 1) rest).1,
            (loadValidate pyHash stem normalize (i + 1) rest).2)
        | none =>
          (dset (assignRowMeta pyHash stem i row) "status" "invalid_phone"
              :: (loadValidate pyHash stem normalize (i + 1) rest).1,
            ("Row " ++ toString (i + 1) ++ ": Invalid phone number format: "
                ++ pyStrip (dget row "phone_number"))
              :: (loadValidate pyHash stem normalize (i + 1) rest).2) := by
  simp only [loadValidate, dget_assignRowMeta_phone]

/-! ## Claim C7 — phone validation never drops a row (refuted) -/

/-- C7 counterexample: a single row whose `phone_number` is empty is
dropped from the loaded contact set by the `continue` in `_load_csv`
(an issue is reported, but the row is gone), so the loaded set is
shorter than the input. -/
theorem C7_counterexample :
    ¬ (∀ (pyHash : String → Int) (stem : String)
        (normalize : String → Option String) (i : Nat) (rows : List Rec),
        (loadValidate pyHash stem normalize i rows).1.length =
          rows.length) := by
  intro h
  have h1 := h (fun _ => 0) "contacts" (fun _ => none) 0
    [[("phone_number", "")]]
  have h2 : (loadValidate (fun _ => (0 : Int)) "contacts" (fun _ => none) 0
      [[("phone_number", "")]]).1.length = 0 := by decide
  rw [h1] at h2
  cases h2

/-- C7 (amended): rows whose stripped phone number is empty are dropped
from the loaded set (each with a reported issue), which is the only way a
row is dropped; rows whose phone fails normalization are retained and
flagged `invalid_phone`, with a reported issue; every retained row either
carries a normalization result as its phone number or is flagged
`invalid_phone`. -/
theorem C7_phone_validation (pyHash : String → Int) (stem : String)
    (normalize : String → Option String) (i : Nat) (rows : List Rec) :
    ((loadValidate pyHash stem normalize i rows).1.length +
        rows.countP (fun r => phoneMissing r) = rows.length) ∧
    ((loadValidate pyHash stem normalize i rows).2.length =
        rows.countP (fun r => phoneMissing r) +
          rows.countP (fun r => phoneInvalid normalize r)) ∧
    (∀ r ∈ (loadValidate pyHash stem normalize i rows).1,
      (∃ p, normalize p = some (dget r "phone_number")) ∨
        dget r "status" = "invalid_phone") := by
  induction rows generalizing i with
  | nil => exact ⟨rfl, rfl, fun r hr => absurd hr (List.not_mem_nil r)⟩
  | cons row rest ih =>
    obtain ⟨ih1, ih2, ih3⟩ := ih (i + 1)
    rw [loadValidate_cons_eq]
    by_cases hm : pyStrip (dget row "phone_number") = ""
    · rw [if_pos hm]
      have hpm : phoneMissing row = true := by
        unfold phoneMissing; rw [hm]; rfl
      refine ⟨?_, ?_, ?_⟩
      · simp [List.countP_cons, hpm]
        omega
      · have hpi : phoneInvalid normalize row = false := by
          unfold phoneInvalid; rw [hpm]; rfl
        simp [List.countP_cons, hpm, hpi]
        omega
      · exact ih3
    · rw [if_neg hm]
      have hpm : phoneMissing row = false := by
        unfold phoneMissing
        simp [hm]
      cases hn : normalize (pyStrip (dget row "phone_number")) with
      | some n =>
        have hpi : phoneInvalid normalize row = false := by
          unfold phoneInvalid; rw [hpm, hn]; rfl
        refine ⟨?_, ?_, ?_⟩
        · simp [List.countP_cons, hpm]
          omega
        · simp [List.countP_cons, hpm, hpi]
          omega
        · intro r hr
          rcases List.mem_cons.mp hr with hhd | htl
          · subst hhd
            exact Or.inl ⟨pyStrip (dget row "phone_number"),
              by rw [hn, dget_dset_self]⟩
          · exact ih3 r htl
      | none =>
        have hpi : phoneInvalid normalize row = true := by
          unfold phoneInvalid; rw [hpm, hn]; rfl
        refine ⟨?_, ?_, ?_⟩
        · simp [List.countP_cons, hpm]
          omega
        · simp [List.countP_cons, hpm, hpi]
          omega
        · intro r hr
          rcases List.mem_cons.mp hr with hhd | htl
          · subst hhd
            exact Or.inr (dget_dset_self _ _ _)
          · exact ih3 r htl

/-- Witness rows for C7: one valid phone, one unnormalizable phone, one
empty phone. -/
def c7WitnessRows : List Rec :=
  [[("phone_number", "+14165551234"), ("name", "Ada")],
   [("phone_number", "not-a-number"), ("name", "Bob")],
   [("phone_number", ""), ("name", "Cid")]]

/-- The second retained row of the C7 witness load, as the load produces
it: unnormalizable phone kept, flagged `invalid_phone`. -/
def c7InvalidRow : Rec :=
  [("phone_number", "not-a-number"), ("name", "Bob"),
   ("external_row_id", "contacts_1_0"), ("status", "invalid_phone")]

/-- C7 amended-claim witness: a three-row file — one valid, one
unnormalizable, one with an empty phone — loads two rows and two issues,
and the retained unnormalizable row is flagged `invalid_phone`. -/
theorem C7_phone_validation_witness :
    ((loadValidate (fun _ => (0 : Int)) "contacts"
          (fun s => if s = "+14165551234" then some "+14165551234" else none)
          0 c7WitnessRows).1.length + c7WitnessRows.countP
            (fun r => phoneMissing r) = 3) ∧
    ((loadValidate (fun _ => (0 : Int)) "contacts"
          (fun s => if s = "+14165551234" then some "+14165551234" else none)
          0 c7WitnessRows).2.length = 2) ∧
    dget c7InvalidRow "status" = "invalid_phone" := by
  have h := C7_phone_validation (fun _ => (0 : Int)) "contacts"
    (fun s => if s = "+14165551234" then some "+14165551234" else none)
    0 c7WitnessRows
  refine ⟨?_, ?_, ?_⟩
  · rw [h.1]; rfl
  · rw [h.2.1]; rfl
  · have hflag := h.2.2 c7InvalidRow (by decide)
    refine hflag.resolve_left ?_
    rintro ⟨p, hp⟩
    by_cases hpe : p = "+14165551234"
    · rw [if_pos hpe] at hp
      exact absurd (Option.some.inj hp) (by decide)
    · rw [if_neg hpe] at hp
      cases hp

/-! ## Claim C8 — external_row_id assignment (refuted across runs) -/

/-- The `external_row_id` a load assigns to a row at position `i`
(`vstudio_cli.py`, lines 829-832), as a function of the process hash. -/
def assignedRowId (pyHash : String → Int) (stem : String) (i : Nat)
    (row : Rec) : String :=
  dget (assignRowMeta pyHash stem i row) "external_row_id"

/-- An already-present (truthy) `external_row_id` is kept unchanged. -/
theorem assignedRowId_of_present (pyHash : String → Int) (stem : String)
    (i : Nat) (row : Rec)
    (h : truthy (dgetOpt row "external_row_id") = true) :
    assignedRowId pyHash stem i row = dget row "external_row_id" := by
  unfold assignedRowId assignRowMeta
  simp only [h, if_true]
  by_cases h2 : truthy (dgetOpt row "status")
  · simp [h2]
  · simp only [h2, Bool.false_eq_true, if_false]
    exact dget_dset_ne _ _ _ _ (by decide)

/-- A missing/empty `external_row_id` is replaced by
`f"{stem}_{i}_{abs(hash(phone+name+company))}"`. -/
theorem assignedRowId_of_missing (pyHash : String → Int) (stem : String)
    (i : Nat) (row : Rec)
    (h : truthy (dgetOpt row "external_row_id") = false) :
    assignedRowId pyHash stem i row =
      stem ++ "_" ++ toString i ++ "_" ++
        toString (pyHash (dget row "phone_number" ++
          dget row "name" ++ dget row "company")).natAbs := by
  unfold assignedRowId assignRowMeta
  simp only [h, Bool.false_eq_true, if_false]
  by_cases h2 : truthy (dgetOpt (dset row "external_row_id"
      (stem ++ "_" ++ toString i ++ "_" ++
        toString (pyHash (dgetD row "phone_number" "" ++
          dgetD row "name" "" ++ dgetD row "company" "")).natAbs))
      "status")
  · simp only [h2, if_true]
    exact dget_dset_self _ _ _
  · simp only [h2, Bool.false_eq_true, if_false]
    rw [dget_dset_ne _ _ _ _ (by decide)]
    exact dget_dset_self _ _ _

/-- C8 counterexample: the id is built from Python's `hash()` of the row
content, and that hash is salted per process (`PYTHONHASHSEED`), so two
loads of the same file content in different process runs (modelled as two
different hash functions) assign different ids to the same row. -/
theorem C8_counterexample :
    ¬ (∀ (hashA hashB : String → Int) (stem : String) (i : Nat) (row : Rec),
        assignedRowId hashA stem i row = assignedRowId hashB stem i row) := by
  intro h
  have h1 := h (fun _ => 0) (fun _ => 1) "contacts" 0
    [("phone_number", "+14165551234")]
  revert h1
  decide

/-- C8 (amended): within a single process run (one hash function), the
assigned id is a deterministic function of the row's content
(phone_number, name, company) and position — two rows with the same
content at the same position get the same id; a row that already carries
a non-empty `external_row_id` keeps it unchanged (so a persisted id is
stable across reloads); and the id resulting from a load is never empty.
Across process runs the generated id may differ, since Python's string
hash is process-salted. -/
theorem C8_row_id_stability (pyHash : String → Int) (stem : String)
    (i : Nat) (row row' : Rec) :
    (truthy (dgetOpt row "external_row_id") = true →
      assignedRowId pyHash stem i row = dget row "external_row_id") ∧
    (truthy (dgetOpt row "external_row_id") = false →
      truthy (dgetOpt row' "external_row_id") = false →
      dget row' "phone_number" = dget row "phone_number" →
      dget row' "name" = dget row "name" →
      dget row' "company" = dget row "company" →
      assignedRowId pyHash stem i row' = assignedRowId pyHash stem i row) ∧
    assignedRowId pyHash stem i row ≠ "" := by
  refine ⟨assignedRowId_of_present pyHash stem i row, ?_, ?_⟩
  · intro h h' hp hn hc
    rw [assignedRowId_of_missing pyHash stem i row h,
      assignedRowId_of_missing pyHash stem i row' h', hp, hn, hc]
  · by_cases h : truthy (dgetOpt row "external_row_id")
    · rw [assignedRowId_of_present pyHash stem i row h]
      cases hopt : dgetOpt row "external_row_id" with
      | none => rw [hopt] at h; cases h
      | some s =>
        rw [hopt] at h
        rw [show truthy (some s) = decide (s ≠ "") from rfl] at h
        simp only [ne_eq, decide_eq_true_eq] at h
        rw [dget, dgetD, hopt, Option.getD_some]
        exact h
    · rw [assignedRowId_of_missing pyHash stem i row
        (Bool.not_eq_true _ ▸ Bool.of_not_eq_true h)]
      intro he
      have hlen := congrArg String.length he
      rw [String.length_append, String.length_append,
        String.length_append, String.length_append] at hlen
      have h1 : ("_" : String).length = 1 := rfl
      rw [h1] at hlen
      simp at hlen

/-! ## Edit History Ledger — `_save_edit_history`, `_edit_field`,
`_revert_field_change`

The ledger is the `edit_history` collection, embedded as a list in
insertion order (`insert_one` appends). `_save_edit_history` swallows
storage errors; the model covers the db-present path where the insert
succeeds. `dbOk` stands for the result of
`db_manager.update_contact(...)`. -/

structure HistEntry where
  contact_id : String
  field : String
  old_value : String
  new_value : String
  timestamp : String
  user : String
deriving DecidableEq, Repr

/-- `VStudioCLI._save_edit_history` (lines 2398-2419): append one entry,
with `user = "system"`. -/
def save_edit_history (ledger : List HistEntry)
    (contactId field oldValue newValue ts : String) : List HistEntry :=
  ledger ++ [⟨contactId, field, oldValue, newValue, ts, "system"⟩]

/-- `VStudioCLI._edit_field` (lines 2308-2339), db-mode path: when the
stripped input is non-empty and differs from the current value, record
the change in the ledger (if the record has a truthy `external_row_id`),
set the field, and push the update to the backend; when that update
fails, the local change is reverted (the ledger entry remains). The
backend-id check after the set reads the (possibly updated) record, as
the source does. -/
def editField (record : Rec) (ledger : List HistEntry)
    (fieldKey newValue ts : String) (dbOk : Bool) : Rec × List HistEntry :=
  if newValue ≠ "" ∧ newValue ≠ dget record fieldKey then
    (if truthy (dgetOpt (dset record fieldKey newValue) "external_row_id")
     then
       if dbOk then dset record fieldKey newValue
       else dset (dset record fieldKey newValue) fieldKey
         (dget record fieldKey)
     else dset record fieldKey newValue,
     if truthy (dgetOpt record "external_row_id") then
       save_edit_history ledger (dget record "external_row_id") fieldKey
         (dget record fieldKey) newValue ts
     else ledger)
  else (record, ledger)

/-- `VStudioCLI._revert_field_change` (lines 2480-2515): on typed
confirmation `YES` and a successful backend update, apply the entry's
old value back to the current record (when it is the same contact) and
append a swapped ledger entry recording the revert. -/
def revertFieldChange (record : Rec) (ledger : List HistEntry)
    (contactId : String) (entry : HistEntry) (confirm : String)
    (dbOk : Bool) (ts : String) : Rec × List HistEntry :=
  if confirm = "YES" then
    if dbOk then
      (if dgetOpt record "external_row_id" == some contactId then
         dset record entry.field entry.old_value
       else record,
       save_edit_history ledger contactId entry.field entry.new_value
         entry.old_value ts)
    else (record, ledger)
  else (record, ledger)

/-! ## Claim C5 — history round-trip -/

/-- C5: a tracked edit of field `f` from `old` to `new`, followed by a
confirmed revert of the created entry with the persistence update
succeeding, restores the field to `old` and leaves the ledger equal to
the original ledger plus the two entries (old→new) then (new→old), in
order — nothing is deleted; moreover both operations only ever append to
the ledger, for every input. -/
theorem C5_history_round_trip (record : Rec) (ledger : List HistEntry)
    (f old new ts1 ts2 cid : String)
    (hid : dgetOpt record "external_row_id" = some cid)
    (hcid : cid ≠ "")
    (hold : dget record f = old)
    (hne : new ≠ "") (hdiff : new ≠ old)
    (hf : f ≠ "external_row_id") :
    (editField record ledger f new ts1 true).2 =
      ledger ++ [⟨cid, f, old, new, ts1, "system"⟩] ∧
    dget (revertFieldChange (editField record ledger f new ts1 true).1
        (editField record ledger f new ts1 true).2 cid
        ⟨cid, f, old, new, ts1, "system"⟩ "YES" true ts2).1 f = old ∧
    (revertFieldChange (editField record ledger f new ts1 true).1
        (editField record ledger f new ts1 true).2 cid
        ⟨cid, f, old, new, ts1, "system"⟩ "YES" true ts2).2 =
      ledger ++ [⟨cid, f, old, new, ts1, "system"⟩,
        ⟨cid, f, new, old, ts2, "system"⟩] ∧
    (∀ (r : Rec) (l : List HistEntry) (fk nv t : String) (ok : Bool),
      l <+: (editField r l fk nv t ok).2) ∧
    (∀ (r : Rec) (l : List HistEntry) (ci t c : String) (e : HistEntry)
      (ok : Bool), l <+: (revertFieldChange r l ci e c ok t).2) := by
  have htr : truthy (dgetOpt record "external_row_id") = true := by
    rw [hid]
    exact decide_eq_true_iff.mpr hcid
  have htr' : truthy (dgetOpt (dset record f new) "external_row_id")
      = true := by
    rw [dgetOpt_dset_ne record f "external_row_id" new (Ne.symm hf), hid]
    exact decide_eq_true_iff.mpr hcid
  have hcidval : dget record "external_row_id" = cid := by
    rw [dget, dgetD, hid]
    rfl
  have hedit : editField record ledger f new ts1 true =
      (dset record f new, ledger ++ [⟨cid, f, old, new, ts1, "system"⟩]) := by
    unfold editField save_edit_history
    rw [hold]
    rw [if_pos ⟨hne, hdiff⟩, if_pos htr', if_pos rfl, if_pos htr, hcidval]
  have hcur : (dgetOpt (dset record f new) "external_row_id"
      == some cid) = true := by
    rw [dgetOpt_dset_ne record f "external_row_id" new (Ne.symm hf), hid]
    exact beq_self_eq_true _
  have hrev : revertFieldChange (dset record f new)
      (ledger ++ [⟨cid, f, old, new, ts1, "system"⟩]) cid
      ⟨cid, f, old, new, ts1, "system"⟩ "YES" true ts2 =
      (dset (dset record f new) f old,
        ledger ++ [⟨cid, f, old, new, ts1, "system"⟩,
          ⟨cid, f, new, old, ts2, "system"⟩]) := by
    unfold revertFieldChange save_edit_history
    rw [if_pos rfl, if_pos rfl, if_pos hcur, List.append_assoc]
    rfl
  refine ⟨?_, ?_, ?_, ?_, ?_⟩
  · rw [hedit]
  · rw [hedit]
    simp only
    rw [hrev]
    exact dget_dset_self _ _ _
  · rw [hedit]
    simp only
    rw [hrev]
  · intro r l fk nv t ok
    unfold editField save_edit_history
    split_ifs <;>
      first
        | exact List.prefix_rfl
        | exact List.prefix_append _ _
  · intro r l ci t c e ok
    unfold revertFieldChange save_edit_history
    split_ifs <;>
      first
        | exact List.prefix_rfl
        | exact List.prefix_append _ _

/-- C5 witness: a concrete contact whose `company` is edited from
`"Acme"` to `"Globex"` and then reverted. -/
theorem C5_history_round_trip_witness :
    (editField [("external_row_id", "id7"), ("company", "Acme")] []
        "company" "Globex" "2024-01-15 10:00" true).2 =
      [⟨"id7", "company", "Acme", "Globex", "2024-01-15 10:00",
        "system"⟩] ∧
    dget (revertFieldChange
        (editField [("external_row_id", "id7"), ("company", "Acme")] []
          "company" "Globex" "2024-01-15 10:00" true).1
        (editField [("external_row_id", "id7"), ("company", "Acme")] []
          "company" "Globex" "2024-01-15 10:00" true).2 "id7"
        ⟨"id7", "company", "Acme", "Globex", "2024-01-15 10:00", "system"⟩
        "YES" true "2024-01-15 10:05").1 "company" = "Acme" := by
  have h := C5_history_round_trip
    [("external_row_id", "id7"), ("company", "Acme")] []
    "company" "Acme" "Globex" "2024-01-15 10:00" "2024-01-15 10:05" "id7"
    (by decide) (by decide) (by decide) (by decide) (by decide) (by decide)
  exact ⟨h.1, h.2.1⟩

/-! ## Operation Retry Queue — `OperationQueue`

A queued operation is a JSON dict; `attempts`/`max_attempts` are the only
fields the queue mechanics mutate, so the remaining fields form the
operation's `core`. `_process_calendar_operation` reads only core fields
(its internal `try`/`except` returns `False` on a collaborator error, so
it is total); it is abstracted as the parameter `proc`, and the presence
of the calendar client as `hasClient`. -/

structure OpCore where
  typ : String
  op : String
  record_id : String
  timestamp : String
  data : List (String × String)
deriving DecidableEq, Repr

structure QOp where
  core : OpCore
  attempts : Nat
  max_attempts : Nat
deriving DecidableEq, Repr

/-- `OperationQueue.add_calendar_operation` (lines 114-127): append an
operation with `type='calendar'`, `attempts=0`, `max_attempts=3`. -/
def add_calendar_operation (queue : List QOp)
    (operationType recordId nowIso : String)
    (data : List (String × String)) : List QOp :=
  queue ++ [⟨⟨"calendar", operationType, recordId, nowIso, data⟩, 0, 3⟩]

/-- The success test inside `process_queue` (lines 145-146): only
calendar operations with a live client are attempted, everything else
counts as failure for this pass. -/
def opSuccess (hasClient : Bool) (proc : OpCore → Bool) (o : QOp) : Bool :=
  o.core.typ == "calendar" && hasClient && proc o.core

/-- `OperationQueue.process_queue` (lines 129-166): per operation,
increment `attempts`, attempt it; successes and operations whose
incremented attempts reached `max_attempts` are not re-queued; the rest
are kept. Returns `(successful_ops, new queue)`. -/
def process_queue (hasClient : Bool) (proc : OpCore → Bool) :
    List QOp → Nat × List QOp
  | [] => (0, [])
  | o :: rest =>
    if opSuccess hasClient proc ⟨o.core, o.attempts + 1, o.max_attempts⟩ then
      ((process_queue hasClient proc rest).1 + 1,
        (process_queue hasClient proc rest).2)
    else if o.attempts + 1 ≥ o.max_attempts then
      ((process_queue hasClient proc rest).1,
        (process_queue hasClient proc rest).2)
    else
      ((process_queue hasClient proc rest).1,
        (⟨o.core, o.attempts + 1, o.max_attempts⟩ : QOp)
          :: (process_queue hasClient proc rest).2)

/-- `n` further `process_queue` drains of a queue (the source calls one
drain per startup). -/
def drainQueueN (hasClient : Bool) (proc : OpCore → Bool) :
    Nat → List QOp → List QOp
  | 0, q => q
  | n + 1, q => drainQueueN hasClient proc n (process_queue hasClient proc q).2

/-! ## Calendar side effects and outcome transitions -/

/-- Result of one `create_callback_event`/`create_meeting_event`
collaborator call: it raised, returned no event id, or returned one. -/
inductive CalResult where
  | err : CalResult
  | noId : CalResult
  | ok : String → CalResult
deriving DecidableEq, Repr

/-- `VStudioCLI._add_timestamped_note` (lines 1970-1993), in-memory
part: prepend `[timestamp] ` and join onto `notes` with `"; "`. -/
def addTimestampedNote (record : Rec) (note ts : String) : Rec :=
  if dget record "notes" ≠ "" then
    dset record "notes"
      (dget record "notes" ++ "; " ++ ("[" ++ ts ++ "] " ++ note))
  else dset record "notes" ("[" ++ ts ++ "] " ++ note)

/-- Outcome of an outcome-handler run: the updated current record, the
updated retry queue, and whether `_save_csv` was reached (the early
`return` paths never mutate or save). -/
structure OutcomeResult where
  record : Rec
  queue : List QOp
  saved : Bool
deriving DecidableEq, Repr

/-- `VStudioCLI._outcome_callback` (lines 1653-1722): `days` is the
operator's parsed integer (negative → rejected, nothing mutated);
`confirm` is the date confirmation; `cal` is the collaborator behaviour
(`none` = no calendar client). On the committed path the record gets
`status=callback`, `callback_on=today+days`, `last_call_at=nowIso`; a
created event id is stored, while a thrown call or a missing id enqueues
a `create_callback` retry; the note is appended and the record saved in
every committed case. -/
def outcome_callback (record : Rec) (queue : List QOp) (today : PyDate)
    (days : Int) (confirm : Bool) (cal : Option CalResult)
    (nowIso noteTs : String) : OutcomeResult :=
  if days < 0 then ⟨record, queue, false⟩
  else if confirm = false then ⟨record, queue, false⟩
  else
    (fun (r1 : Rec) (callbackDate : PyDate) =>
      (fun (r2 : Rec) (q2 : List QOp) =>
        ⟨addTimestampedNote r2
            ("callback scheduled for " ++ callbackDate.iso) noteTs,
          q2, true⟩ : Rec → List QOp → OutcomeResult)
        (match cal with
         | some (.ok eid) => dset r1 "gcal_callback_event_id" eid
         | _ => r1)
        (match cal with
         | some .noId =>
           add_calendar_operation queue "create_callback"
             (dget r1 "external_row_id") nowIso
             [("callback_date", (⟨callbackDate, 10, 0⟩ : PyDateTime).iso),
              ("notes", dget r1 "notes")]
         | some .err =>
           add_calendar_operation queue "create_callback"
             (dget r1 "external_row_id") nowIso
             [("callback_date", (⟨callbackDate, 10, 0⟩ : PyDateTime).iso),
              ("notes", dget r1 "notes")]
         | _ => queue))
      (dset (dset (dset record "status" "callback")
          "callback_on" (today.addDays days.toNat).iso)
        "last_call_at" nowIso)
      (today.addDays days.toNat)

/-- `VStudioCLI._outcome_meeting` (lines 1724-1785): `meetingDT` is the
`dateparser` result (`none` → rejected, nothing mutated); otherwise the
record gets `status=meeting_booked`, `meeting_at`, `last_call_at`; the
calendar event is stored or a `create_meeting` retry enqueued; the note
is appended and the record saved. -/
def outcome_meeting (record : Rec) (queue : List QOp)
    (meetingDT : Option PyDateTime) (confirm : Bool)
    (cal : Option CalResult) (nowIso noteTs : String) : OutcomeResult :=
  match meetingDT with
  | none => ⟨record, queue, false⟩
  | some dt =>
    if confirm = false then ⟨record, queue, false⟩
    else
      (fun (r1 : Rec) =>
        (fun (r2 : Rec) (q2 : List QOp) =>
          ⟨addTimestampedNote r2
              ("meeting booked on " ++ dt.fmtMinute) noteTs,
            q2, true⟩ : Rec → List QOp → OutcomeResult)
          (match cal with
           | some (.ok eid) => dset r1 "gcal_meeting_event_id" eid
           | _ => r1)
          (match cal with
           | some .noId =>
             add_calendar_operation queue "create_meeting"
               (dget r1 "external_row_id") nowIso
               [("meeting_datetime", dt.iso), ("notes", dget r1 "notes")]
           | some .err =>
             add_calendar_operation queue "create_meeting"
               (dget r1 "external_row_id") nowIso
               [("meeting_datetime", dt.iso), ("notes", dget r1 "notes")]
           | _ => queue))
        (dset (dset (dset record "status" "meeting_booked")
            "meeting_at" dt.iso)
          "last_call_at" nowIso)

/-- One field's processing inside `_cancel_calendar_events`
(lines 1800-1827): a truthy event id is passed to
`calendar_client.cancel_event`; the field is blanked only when the call
returns `True` (`some false` = returned `False`, `none` = raised — both
leave the field). The second component is the trace of attempted
cancellations. -/
def cancelOneEvent (cancelEvent : String → Option Bool) (record : Rec)
    (key : String) : Rec × List String :=
  if truthy (dgetOpt record key) then
    match cancelEvent (dget record key) with
    | some true => (dset record key "", [dget record key])
    | _ => (record, [dget record key])
  else (record, [])

/-- `VStudioCLI._cancel_calendar_events`: no client → no-op; otherwise
process the callback event id, then the meeting event id. -/
def cancel_calendar_events (client : Option (String → Option Bool))
    (record : Rec) : Rec × List String :=
  match client with
  | none => (record, [])
  | some cancelEvent =>
    ((cancelOneEvent cancelEvent
        (cancelOneEvent cancelEvent record "gcal_callback_event_id").1
        "gcal_meeting_event_id").1,
      (cancelOneEvent cancelEvent record "gcal_callback_event_id").2 ++
        (cancelOneEvent cancelEvent
          (cancelOneEvent cancelEvent record "gcal_callback_event_id").1
          "gcal_meeting_event_id").2)

/-- `VStudioCLI._outcome_bad_number` (lines 1628-1639): cancel any open
calendar events, set `status=bad_number` and `last_call_at`; the archive
copy and `_save_csv` write the resulting record out. -/
def outcome_bad_number (client : Option (String → Option Bool))
    (record : Rec) (nowIso : String) : Rec × List String :=
  (dset (dset (cancel_calendar_events client record).1
      "status" "bad_number") "last_call_at" nowIso,
    (cancel_calendar_events client record).2)

/-- `VStudioCLI._outcome_do_not_call` (lines 1787-1798): same shape as
the bad-number outcome with `status=do_not_call`. -/
def outcome_do_not_call (client : Option (String → Option Bool))
    (record : Rec) (nowIso : String) : Rec × List String :=
  (dset (dset (cancel_calendar_events client record).1
      "status" "do_not_call") "last_call_at" nowIso,
    (cancel_calendar_events client record).2)

/-- `VStudioCLI._promote_to_client` (lines 2517-2565): requires a truthy
`external_row_id` and the confirmation `y`/`yes`; the ledger entry
(status, current, close_won) is written before the backend update, and
the record's status is set only when the update succeeds. The function
never touches the calendar client. -/
def promote_to_client (record : Rec) (ledger : List HistEntry)
    (confirm : String) (dbOk : Bool) (ts : String) : Rec × List HistEntry :=
  if truthy (dgetOpt record "external_row_id") then
    if confirm = "y" ∨ confirm = "yes" then
      (if dbOk then dset record "status" "close_won" else record,
        save_edit_history ledger (dget record "external_row_id") "status"
          (dgetD record "status" "unknown") "close_won" ts)
    else (record, ledger)
  else (record, ledger)

/-- `VStudioCLI._demote_to_cemetery` (lines 2567-2615): the mirror of
promotion, targeting `close_lost`. -/
def demote_to_cemetery (record : Rec) (ledger : List HistEntry)
    (confirm : String) (dbOk : Bool) (ts : String) : Rec × List HistEntry :=
  if truthy (dgetOpt record "external_row_id") then
    if confirm = "y" ∨ confirm = "yes" then
      (if dbOk then dset record "status" "close_lost" else record,
        save_edit_history ledger (dget record "external_row_id") "status"
          (dgetD record "status" "unknown") "close_lost" ts)
    else (record, ledger)
  else (record, ledger)

/-- Modelled from the spec: `get_contacts_by_status` is invoked by
`_switch_view` (lines 2190, 2193) for the clients and cemetery views and
by several test scripts, but is defined nowhere in the repository
sources. The spec defines these views as the queries
`status == close-won` / `status == close-lost`, i.e. an exact-match
status filter. -/
def get_contacts_by_status (contactsData : List Rec) (status : String) :
    List Rec :=
  contactsData.filter (fun r => dgetOpt r "status" == some status)

/-! ## Supporting lemmas on notes and outcome transitions -/

theorem dget_addTimestampedNote_ne (r : Rec) (note ts k : String)
    (h : k ≠ "notes") :
    dget (addTimestampedNote r note ts) k = dget r k := by
  unfold addTimestampedNote
  by_cases hn : dget r "notes" ≠ ""
  · rw [if_pos hn, dget_dset_ne _ _ _ _ h]
  · rw [if_neg hn, dget_dset_ne _ _ _ _ h]

theorem dget_addTimestampedNote_notes (r : Rec) (note ts : String) :
    dget (addTimestampedNote r note ts) "notes" =
      if dget r "notes" ≠ "" then
        dget r "notes" ++ "; " ++ ("[" ++ ts ++ "] " ++ note)
      else "[" ++ ts ++ "] " ++ note := by
  unfold addTimestampedNote
  by_cases hn : dget r "notes" ≠ ""
  · rw [if_pos hn, if_pos hn, dget_dset_self]
  · rw [if_neg hn, if_neg hn, dget_dset_self]

/-- Evaluation of the callback outcome on the committed path when the
calendar collaborator throws or returns no id. -/
theorem outcome_callback_enqueues (record : Rec) (queue : List QOp)
    (today : PyDate) (days : Int) (cal : CalResult) (nowIso noteTs : String)
    (hdays : 0 ≤ days) (hcal : cal = .err ∨ cal = .noId) :
    outcome_callback record queue today days true (some cal) nowIso noteTs =
      ⟨addTimestampedNote
          (dset (dset (dset record "status" "callback")
            "callback_on" (today.addDays days.toNat).iso)
            "last_call_at" nowIso)
          ("callback scheduled for " ++ (today.addDays days.toNat).iso)
          noteTs,
        add_calendar_operation queue "create_callback"
          (dget (dset (dset (dset record "status" "callback")
            "callback_on" (today.addDays days.toNat).iso)
            "last_call_at" nowIso) "external_row_id") nowIso
          [("callback_date",
              (⟨today.addDays days.toNat, 10, 0⟩ : PyDateTime).iso),
           ("notes", dget (dset (dset (dset record "status" "callback")
             "callback_on" (today.addDays days.toNat).iso)
             "last_call_at" nowIso) "notes")],
        true⟩ := by
  rcases hcal with rfl | rfl <;>
    · unfold outcome_callback
      rw [if_neg (not_lt.mpr hdays), if_neg (by decide)]

/-- Evaluation of the meeting outcome on the committed path when the
calendar collaborator throws or returns no id. -/
theorem outcome_meeting_enqueues (record : Rec) (queue : List QOp)
    (dt : PyDateTime) (cal : CalResult) (nowIso noteTs : String)
    (hcal : cal = .err ∨ cal = .noId) :
    outcome_meeting record queue (some dt) true (some cal) nowIso noteTs =
      ⟨addTimestampedNote
          (dset (dset (dset record "status" "meeting_booked")
            "meeting_at" dt.iso) "last_call_at" nowIso)
          ("meeting booked on " ++ dt.fmtMinute) noteTs,
        add_calendar_operation queue "create_meeting"
          (dget (dset (dset (dset record "status" "meeting_booked")
            "meeting_at" dt.iso) "last_call_at" nowIso) "external_row_id")
          nowIso
          [("meeting_datetime", dt.iso),
           ("notes", dget (dset (dset (dset record "status" "meeting_booked")
             "meeting_at" dt.iso) "last_call_at" nowIso) "notes")],
        true⟩ := by
  rcases hcal with rfl | rfl <;> rfl

/-! ## Claim C4 — best-effort calendar side effects -/

/-- C4: for a committed callback or meeting outcome whose calendar
collaborator throws (`err`) or returns no event id (`noId`), a retry
operation (`create_callback`/`create_meeting`, attempts `0`, limit `3`)
is appended to the retry queue, and the transition still commits: the new
status, the schedule field, and the appended timestamped note are all set
on the record that is saved, and the save is reached. -/
theorem C4_calendar_failure_commits (record : Rec) (queue : List QOp)
    (today : PyDate) (days : Int) (dt : PyDateTime) (cal : CalResult)
    (nowIso noteTs : String)
    (hdays : 0 ≤ days) (hcal : cal = .err ∨ cal = .noId) :
    ((outcome_callback record queue today days true (some cal) nowIso
        noteTs).queue =
      queue ++ [⟨⟨"calendar", "create_callback",
        dget record "external_row_id", nowIso,
        [("callback_date",
            (⟨today.addDays days.toNat, 10, 0⟩ : PyDateTime).iso),
         ("notes", dget record "notes")]⟩, 0, 3⟩]) ∧
    dget (outcome_callback record queue today days true (some cal) nowIso
        noteTs).record "status" = "callback" ∧
    dget (outcome_callback record queue today days true (some cal) nowIso
        noteTs).record "callback_on" = (today.addDays days.toNat).iso ∧
    dget (outcome_callback record queue today days true (some cal) nowIso
        noteTs).record "notes" =
      (if dget record "notes" ≠ "" then
        dget record "notes" ++ "; " ++ ("[" ++ noteTs ++ "] " ++
          ("callback scheduled for " ++ (today.addDays days.toNat).iso))
      else "[" ++ noteTs ++ "] " ++
        ("callback scheduled for " ++ (today.addDays days.toNat).iso)) ∧
    (outcome_callback record queue today days true (some cal) nowIso
        noteTs).saved = true ∧
    ((outcome_meeting record queue (some dt) true (some cal) nowIso
        noteTs).queue =
      queue ++ [⟨⟨"calendar", "create_meeting",
        dget record "external_row_id", nowIso,
        [("meeting_datetime", dt.iso),
         ("notes", dget record "notes")]⟩, 0, 3⟩]) ∧
    dget (outcome_meeting record queue (some dt) true (some cal) nowIso
        noteTs).record "status" = "meeting_booked" ∧
    dget (outcome_meeting record queue (some dt) true (some cal) nowIso
        noteTs).record "meeting_at" = dt.iso ∧
    dget (outcome_meeting record queue (some dt) true (some cal) nowIso
        noteTs).record "notes" =
      (if dget record "notes" ≠ "" then
        dget record "notes" ++ "; " ++ ("[" ++ noteTs ++ "] " ++
          ("meeting booked on " ++ dt.fmtMinute))
      else "[" ++ noteTs ++ "] " ++
        ("meeting booked on " ++ dt.fmtMinute)) ∧
    (outcome_meeting record queue (some dt) true (some cal) nowIso
        noteTs).saved = true := by
  have hcb := outcome_callback_enqueues record queue today days cal nowIso
    noteTs hdays hcal
  have hmt := outcome_meeting_enqueues record queue dt cal nowIso noteTs hcal
  have hrid : dget (dset (dset (dset record "status" "callback")
      "callback_on" (today.addDays days.toNat).iso)
      "last_call_at" nowIso) "external_row_id" =
      dget record "external_row_id" := by
    rw [dget_dset_ne _ _ _ _ (by decide), dget_dset_ne _ _ _ _ (by decide),
      dget_dset_ne _ _ _ _ (by decide)]
  have hnts : dget (dset (dset (dset record "status" "callback")
      "callback_on" (today.addDays days.toNat).iso)
      "last_call_at" nowIso) "notes" = dget record "notes" := by
    rw [dget_dset_ne _ _ _ _ (by decide), dget_dset_ne _ _ _ _ (by decide),
      dget_dset_ne _ _ _ _ (by decide)]
  have hrid2 : dget (dset (dset (dset record "status" "meeting_booked")
      "meeting_at" dt.iso) "last_call_at" nowIso) "external_row_id" =
      dget record "external_row_id" := by
    rw [dget_dset_ne _ _ _ _ (by decide), dget_dset_ne _ _ _ _ (by decide),
      dget_dset_ne _ _ _ _ (by decide)]
  have hnts2 : dget (dset (dset (dset record "status" "meeting_booked")
      "meeting_at" dt.iso) "last_call_at" nowIso) "notes" =
      dget record "notes" := by
    rw [dget_dset_ne _ _ _ _ (by decide), dget_dset_ne _ _ _ _ (by decide),
      dget_dset_ne _ _ _ _ (by decide)]
  refine ⟨?_, ?_, ?_, ?_, ?_, ?_, ?_, ?_, ?_, ?_⟩
  · rw [hcb]
    unfold add_calendar_operation
    rw [hrid, hnts]
  · rw [hcb]
    simp only
    rw [dget_addTimestampedNote_ne _ _ _ _ (by decide),
      dget_dset_ne _ _ _ _ (by decide), dget_dset_ne _ _ _ _ (by decide),
      dget_dset_self]
  · rw [hcb]
    simp only
    rw [dget_addTimestampedNote_ne _ _ _ _ (by decide),
      dget_dset_ne _ _ _ _ (by decide), dget_dset_self]
  · rw [hcb]
    simp only
    rw [dget_addTimestampedNote_notes, hnts]
  · rw [hcb]
  · rw [hmt]
    unfold add_calendar_operation
    rw [hrid2, hnts2]
  · rw [hmt]
    simp only
    rw [dget_addTimestampedNote_ne _ _ _ _ (by decide),
      dget_dset_ne _ _ _ _ (by decide), dget_dset_ne _ _ _ _ (by decide),
      dget_dset_self]
  · rw [hmt]
    simp only
    rw [dget_addTimestampedNote_ne _ _ _ _ (by decide),
      dget_dset_ne _ _ _ _ (by decide), dget_dset_self]
  · rw [hmt]
    simp only
    rw [dget_addTimestampedNote_notes, hnts2]
  · rw [hmt]

/-- C4 witness: a concrete contact, a callback three days out and a
meeting, both with a throwing collaborator. -/
theorem C4_calendar_failure_commits_witness :
    (outcome_callback [("external_row_id", "id1"), ("notes", "n0")] []
        ⟨2024, 1, 15⟩ 3 true (some .err) "2024-01-15T09:00:00"
        "2024-01-15 09:00").queue =
      [⟨⟨"calendar", "create_callback", "id1", "2024-01-15T09:00:00",
        [("callback_date", "2024-01-18T10:00:00"), ("notes", "n0")]⟩,
        0, 3⟩] ∧
    dget (outcome_callback [("external_row_id", "id1"), ("notes", "n0")] []
        ⟨2024, 1, 15⟩ 3 true (some .err) "2024-01-15T09:00:00"
        "2024-01-15 09:00").record "status" = "callback" ∧
    dget (outcome_meeting [("external_row_id", "id1"), ("notes", "n0")] []
        (some ⟨⟨2024, 2, 1⟩, 14, 30⟩) true (some .noId)
        "2024-01-15T09:00:00" "2024-01-15 09:00").record "meeting_at" =
      "2024-02-01T14:30:00" := by
  have h := C4_calendar_failure_commits
    [("external_row_id", "id1"), ("notes", "n0")] [] ⟨2024, 1, 15⟩ 3
    ⟨⟨2024, 2, 1⟩, 14, 30⟩ .err "2024-01-15T09:00:00" "2024-01-15 09:00"
    (by decide) (Or.inl rfl)
  have h2 := C4_calendar_failure_commits
    [("external_row_id", "id1"), ("notes", "n0")] [] ⟨2024, 1, 15⟩ 3
    ⟨⟨2024, 2, 1⟩, 14, 30⟩ .noId "2024-01-15T09:00:00" "2024-01-15 09:00"
    (by decide) (Or.inr rfl)
  refine ⟨?_, ?_, ?_⟩
  · rw [h.1]
    decide
  · rw [h.2.1]
  · rw [h2.2.2.2.2.2.2.2.1]
    decide

/-! ## Supporting lemmas on calendar cancellation -/

theorem cancelOneEvent_fst_cases (f : String → Option Bool) (record : Rec)
    (key : String) :
    (cancelOneEvent f record key).1 = record ∨
      (cancelOneEvent f record key).1 = dset record key "" := by
  unfold cancelOneEvent
  by_cases ht : truthy (dgetOpt record key)
  · rw [if_pos ht]
    cases hc : f (dget record key) with
    | none => left; rfl
    | some b =>
      cases b
      · left; rfl
      · right; rfl
  · rw [if_neg ht]
    left
    rfl

theorem dgetOpt_cancelOneEvent_ne (f : String → Option Bool) (record : Rec)
    (key k : String) (h : k ≠ key) :
    dgetOpt (cancelOneEvent f record key).1 k = dgetOpt record k := by
  rcases cancelOneEvent_fst_cases f record key with he | he <;> rw [he]
  rw [dgetOpt_dset_ne _ _ _ _ h]

theorem dget_cancelOneEvent_ne (f : String → Option Bool) (record : Rec)
    (key k : String) (h : k ≠ key) :
    dget (cancelOneEvent f record key).1 k = dget record k := by
  rw [dget, dgetD, dgetOpt_cancelOneEvent_ne f record key k h, dget, dgetD]

theorem cancelOneEvent_cleared (f : String → Option Bool) (record : Rec)
    (key : String) (ht : truthy (dgetOpt record key) = true)
    (hs : f (dget record key) = some true) :
    (cancelOneEvent f record key).1 = dset record key "" := by
  unfold cancelOneEvent
  rw [if_pos ht, hs]

theorem cancelOneEvent_trace (f : String → Option Bool) (record : Rec)
    (key : String) (ht : truthy (dgetOpt record key) = true) :
    (cancelOneEvent f record key).2 = [dget record key] := by
  unfold cancelOneEvent
  rw [if_pos ht]
  cases hc : f (dget record key) with
  | none => rfl
  | some b =>
    cases b
    · rfl
    · rfl

/-- The cancellation trace of `_cancel_calendar_events` contains every
truthy event id, and a field is blanked exactly on a successful cancel. -/
theorem cancel_calendar_events_facts (f : String → Option Bool)
    (record : Rec) :
    (truthy (dgetOpt record "gcal_callback_event_id") = true →
      dget record "gcal_callback_event_id" ∈
        (cancel_calendar_events (some f) record).2) ∧
    (truthy (dgetOpt record "gcal_meeting_event_id") = true →
      dget record "gcal_meeting_event_id" ∈
        (cancel_calendar_events (some f) record).2) ∧
    (truthy (dgetOpt record "gcal_callback_event_id") = true →
      f (dget record "gcal_callback_event_id") = some true →
      dgetOpt (cancel_calendar_events (some f) record).1
        "gcal_callback_event_id" = some "") ∧
    (truthy (dgetOpt record "gcal_meeting_event_id") = true →
      f (dget record "gcal_meeting_event_id") = some true →
      dgetOpt (cancel_calendar_events (some f) record).1
        "gcal_meeting_event_id" = some "") := by
  have hmtkeep : dgetOpt (cancelOneEvent f record "gcal_callback_event_id").1
      "gcal_meeting_event_id" = dgetOpt record "gcal_meeting_event_id" :=
    dgetOpt_cancelOneEvent_ne f record _ _ (by decide)
  have hmtkeepd : dget (cancelOneEvent f record "gcal_callback_event_id").1
      "gcal_meeting_event_id" = dget record "gcal_meeting_event_id" :=
    dget_cancelOneEvent_ne f record _ _ (by decide)
  refine ⟨?_, ?_, ?_, ?_⟩
  · intro ht
    simp only [cancel_calendar_events]
    rw [cancelOneEvent_trace f record _ ht]
    exact List.mem_append_left _ (List.mem_singleton.mpr rfl)
  · intro ht
    simp only [cancel_calendar_events]
    apply List.mem_append_right
    rw [cancelOneEvent_trace f _ _ (by rw [hmtkeep]; exact ht), hmtkeepd]
    exact List.mem_singleton.mpr rfl
  · intro ht hs
    simp only [cancel_calendar_events]
    rw [dgetOpt_cancelOneEvent_ne f _ _ _ (by decide),
      cancelOneEvent_cleared f record _ ht hs, dgetOpt_dset_self]
  · intro ht hs
    simp only [cancel_calendar_events]
    rw [cancelOneEvent_cleared f _ _ (by rw [hmtkeep]; exact ht)
      (by rw [hmtkeepd]; exact hs), dgetOpt_dset_self]

/-! ## Claim C9 — cancellation asymmetry of terminal transitions -/

/-- C9: promotion to `close_won` and demotion to `close_lost` change only
the `status` field — both calendar event ids survive untouched, and
neither path ever reaches the cancellation helper — whereas the
`bad_number` and `do_not_call` outcomes set their status, pass every
non-empty calendar event id to `cancel_event`, and blank the
corresponding field exactly when that call returns `True`. -/
theorem C9_cancellation_asymmetry (record : Rec) (ledger : List HistEntry)
    (confirm ts nowIso : String) (dbOk : Bool)
    (cancelEvent : String → Option Bool) :
    (∀ k, k ≠ "status" →
      dgetOpt (promote_to_client record ledger confirm dbOk ts).1 k =
        dgetOpt record k) ∧
    (∀ k, k ≠ "status" →
      dgetOpt (demote_to_cemetery record ledger confirm dbOk ts).1 k =
        dgetOpt record k) ∧
    dget (outcome_bad_number (some cancelEvent) record nowIso).1 "status" =
      "bad_number" ∧
    dget (outcome_do_not_call (some cancelEvent) record nowIso).1 "status" =
      "do_not_call" ∧
    (truthy (dgetOpt record "gcal_callback_event_id") = true →
      dget record "gcal_callback_event_id" ∈
          (outcome_bad_number (some cancelEvent) record nowIso).2 ∧
        dget record "gcal_callback_event_id" ∈
          (outcome_do_not_call (some cancelEvent) record nowIso).2) ∧
    (truthy (dgetOpt record "gcal_meeting_event_id") = true →
      dget record "gcal_meeting_event_id" ∈
          (outcome_bad_number (some cancelEvent) record nowIso).2 ∧
        dget record "gcal_meeting_event_id" ∈
          (outcome_do_not_call (some cancelEvent) record nowIso).2) ∧
    (truthy (dgetOpt record "gcal_callback_event_id") = true →
      cancelEvent (dget record "gcal_callback_event_id") = some true →
      dgetOpt (outcome_bad_number (some cancelEvent) record nowIso).1
          "gcal_callback_event_id" = some "" ∧
        dgetOpt (outcome_do_not_call (some cancelEvent) record nowIso).1
          "gcal_callback_event_id" = some "") ∧
    (truthy (dgetOpt record "gcal_meeting_event_id") = true →
      cancelEvent (dget record "gcal_meeting_event_id") = some true →
      dgetOpt (outcome_bad_number (some cancelEvent) record nowIso).1
          "gcal_meeting_event_id" = some "" ∧
        dgetOpt (outcome_do_not_call (some cancelEvent) record nowIso).1
          "gcal_meeting_event_id" = some "") := by
  obtain ⟨hcb, hmt, hcbclr, hmtclr⟩ :=
    cancel_calendar_events_facts cancelEvent record
  have hframe : ∀ (r : Rec) (l : List HistEntry) (c : String) (ok : Bool)
      (t st : String) (k : String), k ≠ "status" →
      dgetOpt (if truthy (dgetOpt r "external_row_id") then
        if c = "y" ∨ c = "yes" then
          (if ok then dset r "status" st else r,
            save_edit_history l (dget r "external_row_id") "status"
              (dgetD r "status" "unknown") st t)
        else (r, l)
      else (r, l)).1 k = dgetOpt r k := by
    intro r l c ok t st k hk
    split_ifs <;> first | rfl | exact dgetOpt_dset_ne _ _ _ _ hk
  refine ⟨?_, ?_, ?_, ?_, ?_, ?_, ?_, ?_⟩
  · intro k hk
    exact hframe record ledger confirm dbOk ts "close_won" k hk
  · intro k hk
    exact hframe record ledger confirm dbOk ts "close_lost" k hk
  · unfold outcome_bad_number
    rw [dget_dset_ne _ _ _ _ (by decide), dget_dset_self]
  · unfold outcome_do_not_call
    rw [dget_dset_ne _ _ _ _ (by decide), dget_dset_self]
  · intro ht
    exact ⟨hcb ht, hcb ht⟩
  · intro ht
    exact ⟨hmt ht, hmt ht⟩
  · intro ht hs
    constructor
    · unfold outcome_bad_number
      rw [dgetOpt_dset_ne _ _ _ _ (by decide),
        dgetOpt_dset_ne _ _ _ _ (by decide)]
      exact hcbclr ht hs
    · unfold outcome_do_not_call
      rw [dgetOpt_dset_ne _ _ _ _ (by decide),
        dgetOpt_dset_ne _ _ _ _ (by decide)]
      exact hcbclr ht hs
  · intro ht hs
    constructor
    · unfold outcome_bad_number
      rw [dgetOpt_dset_ne _ _ _ _ (by decide),
        dgetOpt_dset_ne _ _ _ _ (by decide)]
      exact hmtclr ht hs
    · unfold outcome_do_not_call
      rw [dgetOpt_dset_ne _ _ _ _ (by decide),
        dgetOpt_dset_ne _ _ _ _ (by decide)]
      exact hmtclr ht hs

/-- C9 witness: a confirmed promotion keeps a concrete record's callback
event id, while the bad-number outcome on the same record cancels and
clears it. -/
theorem C9_cancellation_asymmetry_witness :
    dgetOpt (promote_to_client
        [("external_row_id", "id1"), ("status", "callback"),
         ("gcal_callback_event_id", "evt1")] [] "y" true "TS").1
      "gcal_callback_event_id" = some "evt1" ∧
    "evt1" ∈ (outcome_bad_number (some (fun _ => some true))
        [("external_row_id", "id1"), ("status", "callback"),
         ("gcal_callback_event_id", "evt1")] "NOW").2 ∧
    dgetOpt (outcome_bad_number (some (fun _ => some true))
        [("external_row_id", "id1"), ("status", "callback"),
         ("gcal_callback_event_id", "evt1")] "NOW").1
      "gcal_callback_event_id" = some "" := by
  have h := C9_cancellation_asymmetry
    [("external_row_id", "id1"), ("status", "callback"),
     ("gcal_callback_event_id", "evt1")] [] "y" "TS" "NOW" true
    (fun _ => some true)
  refine ⟨?_, ?_, ?_⟩
  · rw [h.1 "gcal_callback_event_id" (by decide)]
    rfl
  · exact (h.2.2.2.2.1 (by decide)).1
  · exact (h.2.2.2.2.2.2.1 (by decide) rfl).1

/-! ## Claim C3 — promotion to client -/

/-- The concrete pre-promotion contact used in the C3 counterexample: a
`callback` contact with an overdue `callback_on`. -/
def c3BaseRec : Rec :=
  [("external_row_id", "id1"), ("status", "callback"),
   ("callback_on", "2024-01-01")]

/-- Its state after a confirmed, successful promotion. -/
def c3Promoted : Rec :=
  (promote_to_client c3BaseRec [] "y" true "2024-01-15 09:00").1

/-- C3 counterexample: a promoted (now `close_won`) contact that still
holds an overdue `callback_on` does **not** disappear from the overdue
view — the code's overdue query has no status filter — refuting the last
part of the claim. -/
theorem C3_counterexample :
    ¬ (∀ (record : Rec) (ledger : List HistEntry) (ts : String)
        (data : List Rec) (asOf : PyDate),
        dget record "status" = "callback" →
        (promote_to_client record ledger "y" true ts).1 ∈ data →
        (promote_to_client record ledger "y" true ts).1 ∉
          getPriorityViewCsv data "overdue" asOf) := by
  intro h
  have hnot := h c3BaseRec [] "2024-01-15 09:00" [c3Promoted]
    ⟨2024, 1, 15⟩ (by decide) (by decide)
  exact hnot (by decide)

/-- C3 (amended): a confirmed promotion of a contact (any status `s`)
with a successful backend update appends the ledger entry
(status, s, close_won), sets the contact's status to `close_won`, and the
contact then appears in the clients view (the spec-modelled
`status == close-won` query) of any contact list containing it; however
it **remains** in the overdue view whenever it still holds an overdue
`callback_on` or `meeting_at`, since that view applies no status
filter. -/
theorem C3_promote_appears_in_clients (record : Rec)
    (ledger : List HistEntry) (ts cid s confirm : String)
    (hid : dgetOpt record "external_row_id" = some cid) (hcid : cid ≠ "")
    (hst : dgetOpt record "status" = some s)
    (hconf : confirm = "y" ∨ confirm = "yes") :
    (promote_to_client record ledger confirm true ts).2 =
      ledger ++ [⟨cid, "status", s, "close_won", ts, "system"⟩] ∧
    dgetOpt (promote_to_client record ledger confirm true ts).1 "status" =
      some "close_won" ∧
    (∀ data : List Rec,
      (promote_to_client record ledger confirm true ts).1 ∈ data →
      (promote_to_client record ledger confirm true ts).1 ∈
        get_contacts_by_status data "close_won") ∧
    (∀ (data : List Rec) (asOf : PyDate),
      (promote_to_client record ledger confirm true ts).1 ∈ data →
      overdueCheck asOf (promote_to_client record ledger confirm true ts).1
        = true →
      (promote_to_client record ledger confirm true ts).1 ∈
        getPriorityViewCsv data "overdue" asOf) := by
  have htr : truthy (dgetOpt record "external_row_id") = true := by
    rw [hid]
    exact decide_eq_true_iff.mpr hcid
  have hpromote : promote_to_client record ledger confirm true ts =
      (dset record "status" "close_won",
        ledger ++ [⟨cid, "status", s, "close_won", ts, "system"⟩]) := by
    unfold promote_to_client save_edit_history
    rw [if_pos htr, if_pos hconf, if_pos rfl]
    rw [show dget record "external_row_id" = cid by rw [dget, dgetD, hid]; rfl,
      show dgetD record "status" "unknown" = s by rw [dgetD, hst]; rfl]
  refine ⟨?_, ?_, ?_, ?_⟩
  · rw [hpromote]
  · rw [hpromote]
    exact dgetOpt_dset_self _ _ _
  · intro data hmem
    unfold get_contacts_by_status
    refine List.mem_filter.mpr ⟨hmem, ?_⟩
    rw [hpromote]
    simp only
    rw [dgetOpt_dset_self]
    rfl
  · intro data asOf hmem hcheck
    exact (mem_overdue_iff data asOf _).mpr ⟨hmem, hcheck⟩

/-- C3 amended-claim witness: the concrete promoted contact appears in
the clients view of the one-element list holding it, and also (still) in
that list's overdue view on 2024-01-15. -/
theorem C3_promote_appears_in_clients_witness :
    (promote_to_client c3BaseRec [] "y" true "2024-01-15 09:00").2 =
      [⟨"id1", "status", "callback", "close_won", "2024-01-15 09:00",
        "system"⟩] ∧
    c3Promoted ∈ get_contacts_by_status [c3Promoted] "close_won" ∧
    c3Promoted ∈ getPriorityViewCsv [c3Promoted] "overdue"
      ⟨2024, 1, 15⟩ := by
  have h := C3_promote_appears_in_clients c3BaseRec [] "2024-01-15 09:00"
    "id1" "callback" "y" (by decide) (by decide) (by decide) (Or.inl rfl)
  refine ⟨?_, ?_, ?_⟩
  · rw [h.1]
    rfl
  · exact h.2.2.1 [c3Promoted] (by decide)
  · exact h.2.2.2 [c3Promoted] ⟨2024, 1, 15⟩ (by decide) (by decide)

/-! ## Claim C6 — retry queue attempt bound and permanent drop -/

/-- The queue a drain leaves behind: every operation gets its attempts
incremented, and is kept only if it failed this pass while staying
strictly under its attempt limit. -/
theorem process_queue_snd (hasClient : Bool) (proc : OpCore → Bool)
    (ops : List QOp) :
    (process_queue hasClient proc ops).2 =
      (ops.map (fun o =>
        (⟨o.core, o.attempts + 1, o.max_attempts⟩ : QOp))).filter
        (fun o' => !opSuccess hasClient proc o' &&
          decide (o'.attempts < o'.max_attempts)) := by
  induction ops with
  | nil => rfl
  | cons o rest ih =>
    rw [List.map_cons, List.filter_cons]
    by_cases hs : opSuccess hasClient proc
      ⟨o.core, o.attempts + 1, o.max_attempts⟩
    · rw [process_queue, if_pos hs, hs]
      simp only [Bool.not_true, Bool.false_and, Bool.false_eq_true,
        if_false]
      exact ih
    · rw [process_queue, if_neg hs]
      rw [Bool.not_eq_true] at hs
      rw [hs]
      by_cases hge : o.attempts + 1 ≥ o.max_attempts
      · rw [if_pos hge]
        have : decide ((⟨o.core, o.attempts + 1, o.max_attempts⟩ :
            QOp).attempts < o.max_attempts) = false := by
          simp only [decide_eq_false_iff_not, not_lt]
          exact hge
        rw [this]
        simp only [Bool.not_false, Bool.true_and, Bool.false_eq_true,
          if_false]
        exact ih
      · rw [if_neg hge]
        have : decide ((⟨o.core, o.attempts + 1, o.max_attempts⟩ :
            QOp).attempts < o.max_attempts) = true := by
          simp only [decide_eq_true_eq]
          omega
        rw [this]
        simp only [Bool.not_false, Bool.true_and, if_true]
        rw [ih]

/-- Every member of a drained queue descends from a member of the input
queue, with the same core. -/
theorem process_queue_core_mem (hasClient : Bool) (proc : OpCore → Bool)
    (ops : List QOp) (o' : QOp)
    (hmem : o' ∈ (process_queue hasClient proc ops).2) :
    ∃ o ∈ ops, o' = (⟨o.core, o.attempts + 1, o.max_attempts⟩ : QOp) ∧
      opSuccess hasClient proc o' = false ∧
      o'.attempts < o'.max_attempts := by
  rw [process_queue_snd] at hmem
  obtain ⟨hmem2, hpred⟩ := List.mem_filter.mp hmem
  obtain ⟨o, ho, heq⟩ := List.mem_map.mp hmem2
  rw [Bool.and_eq_true, Bool.not_eq_true', decide_eq_true_eq] at hpred
  exact ⟨o, ho, heq.symm, hpred.1, hpred.2⟩

/-- A core absent from a queue stays absent through any number of further
drains. -/
theorem drainQueueN_core_absent (hasClient : Bool) (proc : OpCore → Bool)
    (c : OpCore) :
    ∀ (n : Nat) (q : List QOp), (∀ o' ∈ q, o'.core ≠ c) →
      ∀ o' ∈ drainQueueN hasClient proc n q, o'.core ≠ c := by
  intro n
  induction n with
  | zero => intro q habs o' hmem; exact habs o' hmem
  | succ m ih =>
    intro q habs o' hmem
    refine ih (process_queue hasClient proc q).2 ?_ o' hmem
    intro o₂ hmem2
    obtain ⟨o₀, h₀, heq, -, -⟩ :=
      process_queue_core_mem hasClient proc q o₂ hmem2
    rw [heq]
    exact habs o₀ h₀

/-- C6: after any drain, every operation still queued has
`attempts ≤ max_attempts` (in fact strictly below); and when the queued
operations have pairwise-distinct cores, an operation that fails while
its incremented attempt count reaches `max_attempts` is removed during
that drain and is absent from the queue across every sequence of further
drains — it is never retried again. -/
theorem C6_retry_queue_bound (hasClient : Bool) (proc : OpCore → Bool)
    (ops : List QOp) :
    (∀ o' ∈ (process_queue hasClient proc ops).2,
      o'.attempts ≤ o'.max_attempts) ∧
    ((ops.map QOp.core).Nodup →
      ∀ o ∈ ops, opSuccess hasClient proc o = false →
      o.max_attempts ≤ o.attempts + 1 →
      ∀ n, ∀ o' ∈ drainQueueN hasClient proc n
        (process_queue hasClient proc ops).2, o'.core ≠ o.core) := by
  constructor
  · intro o' hmem
    obtain ⟨o, -, -, -, hlt⟩ :=
      process_queue_core_mem hasClient proc ops o' hmem
    omega
  · intro hnodup o hmem hfail hge n
    apply drainQueueN_core_absent hasClient proc o.core n
    intro o₂ hmem2 hcore
    obtain ⟨o₀, h₀, heq, hf₀, hlt₀⟩ :=
      process_queue_core_mem hasClient proc ops o₂ hmem2
    have hcore₀ : o₀.core = o.core := by
      rw [heq] at hcore
      exact hcore
    have hoo : o₀ = o :=
      List.inj_on_of_nodup_map hnodup h₀ hmem hcore₀
    rw [heq, hoo] at hlt₀
    simp only at hlt₀
    omega

/-- C6 witness: a single queued callback-creation at two of three
attempts, with a collaborator that keeps failing: one drain hits the
limit and removes it, and it is absent one and two drains later. -/
theorem C6_retry_queue_bound_witness :
    (∀ o' ∈ (process_queue true (fun _ => false)
        [⟨⟨"calendar", "create_callback", "id1", "t1", []⟩, 2, 3⟩]).2,
      o'.attempts ≤ o'.max_attempts) ∧
    (∀ o' ∈ drainQueueN true (fun _ => false) 2
        (process_queue true (fun _ => false)
          [⟨⟨"calendar", "create_callback", "id1", "t1", []⟩, 2, 3⟩]).2,
      o'.core ≠ ⟨"calendar", "create_callback", "id1", "t1", []⟩) := by
  have h := C6_retry_queue_bound true (fun _ => false)
    [⟨⟨"calendar", "create_callback", "id1", "t1", []⟩, 2, 3⟩]
  refine ⟨h.1, ?_⟩
  exact h.2 (by decide)
    ⟨⟨"calendar", "create_callback", "id1", "t1", []⟩, 2, 3⟩
    (by decide) (by decide) (by decide) 2

/-- C2 amended-claim witness: a concrete `close_won` contact is absent
from the `new` view, a concrete `deleted` contact is absent from the
all-active view, and the terminal `close_won` contact with a meeting
today and an overdue callback appears in both the `today` and the
`overdue` views. -/
theorem C2_view_exclusions_witness :
    closeWonOverdueRec ∉
      getPriorityViewCsv [closeWonOverdueRec] "new" ⟨2024, 1, 15⟩ ∧
    ([("status", "deleted")] : Rec) ∉
      getPriorityViewCsv [[("status", "deleted")]] "all" ⟨2024, 1, 15⟩ ∧
    closeWonBusyRec ∈
      getPriorityViewCsv [closeWonBusyRec] "today" ⟨2024, 1, 15⟩ ∧
    closeWonBusyRec ∈
      getPriorityViewCsv [closeWonBusyRec] "overdue" ⟨2024, 1, 15⟩ := by
  refine ⟨?_, ?_, ?_, ?_⟩
  · exact (C2_view_exclusions [closeWonOverdueRec] ⟨2024, 1, 15⟩
      closeWonOverdueRec).2.2.1 "close_won" (by decide) (by decide)
  · exact (C2_view_exclusions [[("status", "deleted")]] ⟨2024, 1, 15⟩
      [("status", "deleted")]).2.1 (Or.inl (by decide))
  · exact (C2_view_exclusions [closeWonBusyRec] ⟨2024, 1, 15⟩
      closeWonBusyRec).2.2.2.2.2.1 "close_won" (by decide) (by decide)
      (by decide) (by decide)
  · exact (C2_view_exclusions [closeWonBusyRec] ⟨2024, 1, 15⟩
      closeWonBusyRec).2.2.2.2.2.2 "close_won" (by decide) (by decide)
      (by decide) (by decide)

/-- C8 amended-claim witness: a present id is kept, two rows with equal
content at the same position get the same generated id, and a generated
id is non-empty. -/
theorem C8_row_id_stability_witness :
    assignedRowId (fun _ => (5 : Int)) "contacts" 0
        [("external_row_id", "keep"), ("phone_number", "+1")] = "keep" ∧
    assignedRowId (fun _ => (5 : Int)) "contacts" 1
        [("phone_number", "+1"), ("name", "A"), ("company", "C"),
         ("email", "x")] =
      assignedRowId (fun _ => (5 : Int)) "contacts" 1
        [("phone_number", "+1"), ("name", "A"), ("company", "C")] ∧
    assignedRowId (fun _ => (5 : Int)) "contacts" 0
        [("phone_number", "+1")] ≠ "" := by
  refine ⟨?_, ?_, ?_⟩
  · have h := (C8_row_id_stability (fun _ => (5 : Int)) "contacts" 0
      [("external_row_id", "keep"), ("phone_number", "+1")]
      [("external_row_id", "keep"), ("phone_number", "+1")]).1 (by decide)
    rw [h]
    rfl
  · exact (C8_row_id_stability (fun _ => (5 : Int)) "contacts" 1
      [("phone_number", "+1"), ("name", "A"), ("company", "C")]
      [("phone_number", "+1"), ("name", "A"), ("company", "C"),
       ("email", "x")]).2.1 (by decide) (by decide) (by decide) (by decide)
      (by decide)
  · exact (C8_row_id_stability (fun _ => (5 : Int)) "contacts" 0
      [("phone_number", "+1")] [("phone_number", "+1")]).2.2

end VStudio
